import Mathlib

/-!
Verification of the `goose` migration CLI front end (`cmd/goose/main.go`).

The program is embedded shallowly: `main` and `setupTLS` become pure Lean
functions that return the ordered trace of external actions they perform
(file reads, TLS-profile registration, dialect selection, `sql.Open`,
`goose.Run`) together with the process outcome (usage / fatal / success).
Results of external calls are supplied by a `World` oracle, except for
`goose.SetDialect`, which belongs to this repository but is not under the
provided sources and is therefore modelled from the specification.
-/

namespace Goose

/-- The flag values parsed by the `flag.NewFlagSet` in `main.go`:
`-dir` (default "."), `-tlsname`, `-cacert`, `-clientcert`, `-clientkey`
(all default "") and the boolean `-useclientcert` (default false). -/
structure Flags where
  dir : String
  tlsName : String
  caCert : String
  clientCert : String
  clientKey : String
  useClientCert : Bool
deriving Repr, DecidableEq

/-- Opaque database handle returned by a successful `sql.Open`. -/
abbrev DB := Nat

/-- A client certificate/key pair as loaded by `tls.LoadX509KeyPair`. -/
structure ClientCertPair where
  certFile : String
  keyFile : String
deriving Repr, DecidableEq

/-- The `tls.Config` value registered with the MySQL driver: the CA pool is
represented by the PEM bytes appended to it, and `Certificates` is the list
of client certificate pairs (empty or a singleton in this program). -/
structure TLSProfile where
  rootCAs : List Nat
  certificates : List ClientCertPair
deriving Repr, DecidableEq

/-- The externally observable actions of one invocation, in program order. -/
inductive Event where
  /-- `ioutil.ReadFile` on a certificate path. -/
  | readFile (path : String)
  /-- `tls.LoadX509KeyPair` on the client cert/key paths. -/
  | loadKeyPair (certFile keyFile : String)
  /-- `mysql.RegisterTLSConfig(name, cfg)`. -/
  | registerTLSProfile (name : String) (cfg : TLSProfile)
  /-- the `log.Println("tls enabled")` confirmation. -/
  | logTLSEnabled
  /-- `goose.SetDialect(dialect)`. -/
  | setDialect (dialect : String)
  /-- `sql.Open(driver, dbstring)`. -/
  | sqlOpen (driver dbstring : String)
  /-- `goose.Run(command, db, dir, cmdArgs...)`. -/
  | gooseRun (command : String) (db : Option DB) (dir : String)
      (cmdArgs : List String)
deriving Repr, DecidableEq

/-- The distinct fatal-abort sites of `main.go`, one constructor per
`log.Fatal*` call, carrying the data interpolated into its message. -/
inductive Msg where
  /-- line 62: "cacert, clientcert, clientkey flags should only be set if
  the driver is mysql". -/
  | tlsDriverErr
  /-- line 66: "cacert needs to always be set and client cert/key needs to
  be set if using clientcert". -/
  | tlsFlagErr
  /-- line 155: `log.Fatal(err)` when `ioutil.ReadFile` on the CA file fails. -/
  | caReadErr (e : String)
  /-- line 160: `log.Fatal(err)` when `AppendCertsFromPEM` yields no usable
  certificate (the `err` logged there is the nil error of the successful
  read, so the printed text is "<nil>"). -/
  | caPemErr
  /-- line 167: `log.Fatal(err)` when `tls.LoadX509KeyPair` fails. -/
  | keyPairErr (e : String)
  /-- line 75: `log.Fatal(err)` when `goose.SetDialect` fails. -/
  | dialectErr (e : String)
  /-- line 87: `log.Fatalf("-dbstring=%q not supported\n", dbstring)`. -/
  | dbstringEmpty (dbstring : String)
  /-- line 93: `log.Fatalf("-dbstring=%q: %v\n", dbstring, err)` when
  `sql.Open` fails. -/
  | openErr (dbstring e : String)
  /-- lines 45/50/102: `log.Fatalf("goose run: %v", err)`. -/
  | runErr (e : String)
deriving Repr, DecidableEq

/-- How one invocation terminates. -/
inductive Outcome where
  /-- the usage text was printed and the process returned normally. -/
  | usage
  /-- a `log.Fatal*` site fired. -/
  | fatal (m : Msg)
  /-- `main` ran to completion. -/
  | success
deriving Repr, DecidableEq

/-- Oracle for the results of the external calls the program makes. -/
structure World where
  /-- result of `ioutil.ReadFile`. -/
  readFile : String → Except String (List Nat)
  /-- whether `x509.CertPool.AppendCertsFromPEM` finds a usable certificate. -/
  appendCertsFromPEM : List Nat → Bool
  /-- result of `tls.LoadX509KeyPair`. -/
  loadX509KeyPair : String → String → Except String ClientCertPair
  /-- result of `sql.Open`. -/
  sqlOpen : String → String → Except String DB
  /-- error, if any, returned by `goose.Run`. -/
  gooseRun : String → Option DB → String → List String → Option String

/-- Embedding of `setupTLS` (`main.go` lines 151-178): read the CA file,
append it to a fresh cert pool, optionally load the client pair when
`useClientCert` is set, then register the named TLS profile and log the
confirmation.  Returns the events performed and the fatal site, if any. -/
def setupTLS (fl : Flags) (w : World) : List Event × Option Msg :=
  match w.readFile fl.caCert with
  | Except.error e => ([Event.readFile fl.caCert], some (Msg.caReadErr e))
  | Except.ok pem =>
    if w.appendCertsFromPEM pem then
      if fl.useClientCert then
        match w.loadX509KeyPair fl.clientCert fl.clientKey with
        | Except.error e =>
          ([Event.readFile fl.caCert,
            Event.loadKeyPair fl.clientCert fl.clientKey],
           some (Msg.keyPairErr e))
        | Except.ok pair =>
          ([Event.readFile fl.caCert,
            Event.loadKeyPair fl.clientCert fl.clientKey,
            Event.registerTLSProfile fl.tlsName ⟨pem, [pair]⟩,
            Event.logTLSEnabled], none)
      else
        ([Event.readFile fl.caCert,
          Event.registerTLSProfile fl.tlsName ⟨pem, []⟩,
          Event.logTLSEnabled], none)
    else
      ([Event.readFile fl.caCert], some Msg.caPemErr)

/-- The guard of `main.go` line 60: some TLS flag is non-empty. -/
def tlsFlagSet (fl : Flags) : Prop :=
  fl.caCert ≠ "" ∨ fl.clientCert ≠ "" ∨ fl.clientKey ≠ "" ∨ fl.tlsName ≠ ""

instance (fl : Flags) : Decidable (tlsFlagSet fl) := by
  unfold tlsFlagSet; infer_instance

/-- The guard of `main.go` line 65: required TLS material is missing. -/
def tlsComboBad (fl : Flags) : Prop :=
  (fl.caCert = "" ∨ fl.tlsName = "") ∨
    ((fl.clientCert = "" ∨ fl.clientKey = "") ∧ fl.useClientCert = true)

instance (fl : Flags) : Decidable (tlsComboBad fl) := by
  unfold tlsComboBad; infer_instance

/-- The TLS block of `main` (lines 60-70): when some TLS flag is set, the
driver token must be exactly "mysql" (line 61), the material-combination
check of line 65 must pass, and then `setupTLS` runs. -/
def tlsPhase (fl : Flags) (driverName : String) (w : World) :
    List Event × Option Outcome :=
  if tlsFlagSet fl then
    if driverName ≠ "mysql" then
      ([], some (Outcome.fatal Msg.tlsDriverErr))
    else if tlsComboBad fl then
      ([], some (Outcome.fatal Msg.tlsFlagErr))
    else
      match setupTLS fl w with
      | (evs, some m) => (evs, some (Outcome.fatal m))
      | (evs, none) => (evs, none)
  else ([], none)

/-- Modelled from the spec: `goose.SetDialect`, the Migration Engine's
dialect-selection entry point (package `github.com/pressly/goose`, which is
part of this repository but not among the provided sources).  Per the spec,
the recognized dialects are exactly postgres, mysql, sqlite3, redshift and
tidb; any other token returns an error and an unknown driver token is an
error, not a silent default. -/
def SetDialect (d : String) : Option String :=
  if d = "postgres" ∨ d = "mysql" ∨ d = "sqlite3" ∨ d = "redshift" ∨ d = "tidb"
  then none
  else some ("unknown dialect: " ++ d)

/-- The alias switch of `main.go` lines 78-83: the wire driver handed to
`sql.Open` after dialect selection. -/
def wireDriver (d : String) : String :=
  if d = "redshift" then "postgres" else if d = "tidb" then "mysql" else d

/-- Lines 74-103 of `main`: select the dialect, substitute the wire driver,
reject an empty dbstring, open the handle, and run the command with
`args[3:]` as its arguments. -/
def dispatch (fl : Flags) (w : World) (driver dbstring command : String)
    (more : List String) : List Event × Outcome :=
  match SetDialect driver with
  | some e => ([Event.setDialect driver], Outcome.fatal (Msg.dialectErr e))
  | none =>
    if dbstring = "" then
      ([Event.setDialect driver], Outcome.fatal (Msg.dbstringEmpty dbstring))
    else
      match w.sqlOpen (wireDriver driver) dbstring with
      | Except.error e =>
        ([Event.setDialect driver, Event.sqlOpen (wireDriver driver) dbstring],
         Outcome.fatal (Msg.openErr dbstring e))
      | Except.ok db =>
        match w.gooseRun command (some db) fl.dir more with
        | some e =>
          ([Event.setDialect driver, Event.sqlOpen (wireDriver driver) dbstring,
            Event.gooseRun command (some db) fl.dir more],
           Outcome.fatal (Msg.runErr e))
        | none =>
          ([Event.setDialect driver, Event.sqlOpen (wireDriver driver) dbstring,
            Event.gooseRun command (some db) fl.dir more],
           Outcome.success)

/-- Embedding of `main` (`main.go` lines 32-104), applied to the positional
arguments left after flag parsing.  No arguments or a help token prints
usage; `create` and `fix` run the engine locally with a nil handle; fewer
than three tokens prints usage; otherwise the TLS phase runs (when
triggered) followed by dialect selection, connection opening and dispatch. -/
def mainRun (fl : Flags) (args : List String) (w : World) :
    List Event × Outcome :=
  match args with
  | [] => ([], Outcome.usage)
  | a0 :: rest =>
    if a0 = "-h" ∨ a0 = "--help" then ([], Outcome.usage)
    else if a0 = "create" then
      match w.gooseRun "create" none fl.dir rest with
      | some e => ([Event.gooseRun "create" none fl.dir rest],
                   Outcome.fatal (Msg.runErr e))
      | none => ([Event.gooseRun "create" none fl.dir rest], Outcome.success)
    else if a0 = "fix" then
      match w.gooseRun "fix" none fl.dir [] with
      | some e => ([Event.gooseRun "fix" none fl.dir []],
                   Outcome.fatal (Msg.runErr e))
      | none => ([Event.gooseRun "fix" none fl.dir []], Outcome.success)
    else
      match rest with
      | [] => ([], Outcome.usage)
      | [_] => ([], Outcome.usage)
      | dbstring :: command :: more =>
        match tlsPhase fl a0 w with
        | (evs, some o) => (evs, o)
        | (evs, none) =>
          let r := dispatch fl w a0 dbstring command more
          (evs ++ r.1, r.2)

/-- Recognizer for `sql.Open` events. -/
def Event.isSqlOpen : Event → Bool
  | Event.sqlOpen _ _ => true
  | _ => false

/-- Recognizer for `goose.SetDialect` events. -/
def Event.isSetDialect : Event → Bool
  | Event.setDialect _ => true
  | _ => false

/-- Recognizer for file-reading events (CA read or key-pair load). -/
def Event.isFileRead : Event → Bool
  | Event.readFile _ => true
  | Event.loadKeyPair _ _ => true
  | _ => false

/-- Recognizer for client key-pair loads. -/
def Event.isLoadKeyPair : Event → Bool
  | Event.loadKeyPair _ _ => true
  | _ => false

/-- Recognizer for TLS-profile registrations. -/
def Event.isRegisterTLS : Event → Bool
  | Event.registerTLSProfile _ _ => true
  | _ => false

/-- TLS configuration was observably attempted in a run: either one of the
two TLS-validation fatal sites fired, or a TLS action (certificate file
read, key-pair load, profile registration) appears in the trace. -/
def tlsTouched (r : List Event × Outcome) : Prop :=
  r.2 = Outcome.fatal Msg.tlsDriverErr ∨ r.2 = Outcome.fatal Msg.tlsFlagErr ∨
    ∃ ev ∈ r.1, ev.isFileRead = true ∨ ev.isRegisterTLS = true

instance (r : List Event × Outcome) : Decidable (tlsTouched r) := by
  unfold tlsTouched; exact inferInstance

/-- A world where every external call succeeds trivially. -/
def wOk : World where
  readFile := fun _ => Except.ok [1, 2, 3]
  appendCertsFromPEM := fun _ => true
  loadX509KeyPair := fun c k => Except.ok ⟨c, k⟩
  sqlOpen := fun _ _ => Except.ok 0
  gooseRun := fun _ _ _ _ => none

/-- A world whose CA file is readable but contains no usable PEM certificate. -/
def wPemFail : World where
  readFile := fun _ => Except.ok [9, 9]
  appendCertsFromPEM := fun _ => false
  loadX509KeyPair := fun c k => Except.ok ⟨c, k⟩
  sqlOpen := fun _ _ => Except.ok 0
  gooseRun := fun _ _ _ _ => none

/-- Every branch of setupTLS begins by reading the CA certificate file. -/
lemma setupTLS_readFile_mem (fl : Flags) (w : World) :
    Event.readFile fl.caCert ∈ (setupTLS fl w).1 := by
  unfold setupTLS
  split
  · simp
  · split
    · split
      · split <;> simp
      · simp
    · simp

/-- setupTLS never opens a database connection. -/
lemma setupTLS_no_sqlOpen (fl : Flags) (w : World) :
    ∀ ev ∈ (setupTLS fl w).1, ev.isSqlOpen = false := by
  unfold setupTLS
  split
  · simp [Event.isSqlOpen]
  · split
    · split
      · split <;> simp [Event.isSqlOpen]
      · simp [Event.isSqlOpen]
    · simp [Event.isSqlOpen]

/-- The TLS phase never opens a database connection. -/
lemma tlsPhase_no_sqlOpen (fl : Flags) (a0 : String) (w : World) :
    ∀ ev ∈ (tlsPhase fl a0 w).1, ev.isSqlOpen = false := by
  unfold tlsPhase
  split
  · split
    · simp
    · split
      · simp
      · split <;> rename_i heq <;>
          · have h := setupTLS_no_sqlOpen fl w
            rw [heq] at h
            simpa using h
  · simp

/-- The dispatch phase performs no TLS action. -/
lemma dispatch_no_tls_events (fl : Flags) (w : World) (driver dbs cmd : String)
    (more : List String) :
    ∀ ev ∈ (dispatch fl w driver dbs cmd more).1,
      ev.isFileRead = false ∧ ev.isRegisterTLS = false ∧
        ev.isLoadKeyPair = false := by
  unfold dispatch
  split
  · simp [Event.isFileRead, Event.isRegisterTLS, Event.isLoadKeyPair]
  · split
    · simp [Event.isFileRead, Event.isRegisterTLS, Event.isLoadKeyPair]
    · split
      · simp [Event.isFileRead, Event.isRegisterTLS, Event.isLoadKeyPair]
      · split <;> simp [Event.isFileRead, Event.isRegisterTLS, Event.isLoadKeyPair]

/-- The dispatch phase never aborts at either TLS-validation fatal site. -/
lemma dispatch_outcome_not_tls (fl : Flags) (w : World) (driver dbs cmd : String)
    (more : List String) :
    (dispatch fl w driver dbs cmd more).2 ≠ Outcome.fatal Msg.tlsDriverErr ∧
    (dispatch fl w driver dbs cmd more).2 ≠ Outcome.fatal Msg.tlsFlagErr := by
  unfold dispatch
  split
  · simp
  · split
    · simp
    · split
      · simp
      · split <;> simp

/-- On the driver path with some TLS flag set, the run observably touches
TLS configuration: it dies at a TLS-validation site or reads the CA file. -/
lemma mainRun_touched_of_flags (fl : Flags) (w : World) (a0 dbs cmd : String)
    (more : List String)
    (hh : ¬(a0 = "-h" ∨ a0 = "--help")) (hc : a0 ≠ "create") (hf : a0 ≠ "fix")
    (ht : tlsFlagSet fl) :
    tlsTouched (mainRun fl (a0 :: dbs :: cmd :: more) w) := by
  by_cases hm : a0 = "mysql"
  · by_cases hb : tlsComboBad fl
    · have hmr : mainRun fl (a0 :: dbs :: cmd :: more) w
          = ([], Outcome.fatal Msg.tlsFlagErr) := by
        simp [mainRun, tlsPhase, hh, hc, hf, ht, hm, hb]
      rw [hmr]
      unfold tlsTouched
      exact Or.inr (Or.inl rfl)
    · rcases hs : setupTLS fl w with ⟨evs, m⟩
      have hmem : Event.readFile fl.caCert ∈ evs := by
        have h := setupTLS_readFile_mem fl w
        rw [hs] at h
        exact h
      cases m with
      | some mm =>
        have hmr : mainRun fl (a0 :: dbs :: cmd :: more) w
            = (evs, Outcome.fatal mm) := by
          simp [mainRun, tlsPhase, hh, hc, hf, ht, hm, hb, hs]
        rw [hmr]
        unfold tlsTouched
        exact Or.inr (Or.inr ⟨_, hmem, Or.inl rfl⟩)
      | none =>
        have hmr : (mainRun fl (a0 :: dbs :: cmd :: more) w).1
            = evs ++ (dispatch fl w a0 dbs cmd more).1 := by
          simp [mainRun, tlsPhase, hh, hc, hf, ht, hm, hb, hs]
        unfold tlsTouched
        refine Or.inr (Or.inr ⟨Event.readFile fl.caCert, ?_, Or.inl rfl⟩)
        rw [hmr]
        exact List.mem_append_left _ hmem
  · have hmr : mainRun fl (a0 :: dbs :: cmd :: more) w
        = ([], Outcome.fatal Msg.tlsDriverErr) := by
      simp [mainRun, tlsPhase, hh, hc, hf, ht, hm]
    rw [hmr]
    unfold tlsTouched
    exact Or.inl rfl

/-- On the driver path with no TLS flag set, the run never touches TLS
configuration. -/
lemma mainRun_not_touched (fl : Flags) (w : World) (a0 dbs cmd : String)
    (more : List String)
    (hh : ¬(a0 = "-h" ∨ a0 = "--help")) (hc : a0 ≠ "create") (hf : a0 ≠ "fix")
    (ht : ¬ tlsFlagSet fl) :
    ¬ tlsTouched (mainRun fl (a0 :: dbs :: cmd :: more) w) := by
  have hmr : mainRun fl (a0 :: dbs :: cmd :: more) w
      = dispatch fl w a0 dbs cmd more := by
    simp [mainRun, tlsPhase, hh, hc, hf, ht]
  rw [hmr]
  intro htouch
  simp only [tlsTouched] at htouch
  rcases htouch with h | h | ⟨ev, hev, hor⟩
  · exact (dispatch_outcome_not_tls fl w a0 dbs cmd more).1 h
  · exact (dispatch_outcome_not_tls fl w a0 dbs cmd more).2 h
  · rcases dispatch_no_tls_events fl w a0 dbs cmd more ev hev with ⟨h1, h2, -⟩
    rcases hor with h | h
    · rw [h1] at h
      exact Bool.false_ne_true h
    · rw [h2] at h
      exact Bool.false_ne_true h

/-- With a known dialect, a non-empty dbstring, the dispatch trace selects
the dialect under its own name and opens the connection under the wire
driver; every open in the trace uses the wire driver. -/
lemma dispatch_wire (fl : Flags) (w : World) (driver dbs cmd : String)
    (more : List String) (hdb : dbs ≠ "") (hok : SetDialect driver = none) :
    Event.setDialect driver ∈ (dispatch fl w driver dbs cmd more).1 ∧
    Event.sqlOpen (wireDriver driver) dbs ∈ (dispatch fl w driver dbs cmd more).1 ∧
    ∀ d s, Event.sqlOpen d s ∈ (dispatch fl w driver dbs cmd more).1 →
      d = wireDriver driver ∧ s = dbs := by
  unfold dispatch
  simp only [hok]
  rw [if_neg hdb]
  rcases ho : w.sqlOpen (wireDriver driver) dbs with e | db
  · simp
  · rcases hr : w.gooseRun cmd (some db) fl.dir more with _ | e <;> simp [hr]

/-- C1 counterexample: with the tlsname flag set and the unknown driver
token "oracle", the process aborts at the TLS driver-validation site, not
with a dialect-selection error: the dialect-selection call never happens,
so the claim as stated (failure with a DialectError) is false here. -/
theorem C1_counterexample :
    SetDialect "oracle" ≠ none ∧
    mainRun ⟨".", "custom", "", "", "", false⟩ ["oracle", "dsn", "up"] wOk
      = ([], Outcome.fatal Msg.tlsDriverErr) ∧
    ∀ ev ∈ (mainRun ⟨".", "custom", "", "", "", false⟩
        ["oracle", "dsn", "up"] wOk).1, ev.isSetDialect = false := by
  decide

/-- C1 (amended): on the driver-dispatch path (first token is none of
create, fix, -h, --help, and at least three tokens), an unknown driver
token never leads to a connection-open attempt; and when no TLS flag is
set, the invocation aborts with exactly the dialect-selection error after
performing only the dialect-selection call. -/
theorem C1_unknown_driver_never_opens (fl : Flags) (w : World)
    (a0 dbs cmd : String) (more : List String) (err : String)
    (hh1 : a0 ≠ "-h") (hh2 : a0 ≠ "--help") (hc : a0 ≠ "create")
    (hf : a0 ≠ "fix") (he : SetDialect a0 = some err) :
    (∀ ev ∈ (mainRun fl (a0 :: dbs :: cmd :: more) w).1,
      ev.isSqlOpen = false) ∧
    (¬ tlsFlagSet fl →
      mainRun fl (a0 :: dbs :: cmd :: more) w
        = ([Event.setDialect a0], Outcome.fatal (Msg.dialectErr err))) := by
  constructor
  · rcases hp : tlsPhase fl a0 w with ⟨evs, res⟩
    have hev : ∀ ev ∈ evs, Event.isSqlOpen ev = false := by
      have h := tlsPhase_no_sqlOpen fl a0 w
      rw [hp] at h
      simpa using h
    cases res with
    | some o =>
      have hmr : mainRun fl (a0 :: dbs :: cmd :: more) w = (evs, o) := by
        simp [mainRun, hh1, hh2, hc, hf, hp]
      rw [hmr]
      exact hev
    | none =>
      have hmr : (mainRun fl (a0 :: dbs :: cmd :: more) w).1
          = evs ++ (dispatch fl w a0 dbs cmd more).1 := by
        simp [mainRun, hh1, hh2, hc, hf, hp]
      rw [hmr]
      intro ev hevm
      rcases List.mem_append.1 hevm with h | h
      · exact hev ev h
      · simp [dispatch, he] at h
        rw [h]
        rfl
  · intro ht
    simp [mainRun, hh1, hh2, hc, hf, tlsPhase, ht, dispatch, he]

/-- C1 witness: the amended theorem applied to the unknown driver "oracle"
with no TLS flags set. -/
theorem C1_witness :
    (∀ ev ∈ (mainRun ⟨".", "", "", "", "", false⟩
        ["oracle", "dsn", "up"] wOk).1, ev.isSqlOpen = false) ∧
    (¬ tlsFlagSet (⟨".", "", "", "", "", false⟩ : Flags) →
      mainRun ⟨".", "", "", "", "", false⟩ ["oracle", "dsn", "up"] wOk
        = ([Event.setDialect "oracle"],
           Outcome.fatal (Msg.dialectErr ("unknown dialect: " ++ "oracle")))) :=
  C1_unknown_driver_never_opens _ wOk "oracle" "dsn" "up" [] _
    (by decide) (by decide) (by decide) (by decide) rfl

/-- C2: on invocations with driver token redshift (three or more tokens, a
non-empty dbstring, no TLS flags), the dialect passed to the selection call
is redshift while every `sql.Open` in the trace uses the postgres wire
driver; symmetrically tidb selects the tidb dialect and opens with mysql. -/
theorem C2_alias_dialect_vs_wire (fl : Flags) (w : World) (dbs cmd : String)
    (more : List String) (hdb : dbs ≠ "") (ht : ¬ tlsFlagSet fl) :
    (Event.setDialect "redshift"
        ∈ (mainRun fl ("redshift" :: dbs :: cmd :: more) w).1 ∧
      Event.sqlOpen "postgres" dbs
        ∈ (mainRun fl ("redshift" :: dbs :: cmd :: more) w).1 ∧
      ∀ d s, Event.sqlOpen d s
          ∈ (mainRun fl ("redshift" :: dbs :: cmd :: more) w).1 →
        d = "postgres") ∧
    (Event.setDialect "tidb"
        ∈ (mainRun fl ("tidb" :: dbs :: cmd :: more) w).1 ∧
      Event.sqlOpen "mysql" dbs
        ∈ (mainRun fl ("tidb" :: dbs :: cmd :: more) w).1 ∧
      ∀ d s, Event.sqlOpen d s
          ∈ (mainRun fl ("tidb" :: dbs :: cmd :: more) w).1 →
        d = "mysql") := by
  have e1 : mainRun fl ("redshift" :: dbs :: cmd :: more) w
      = dispatch fl w "redshift" dbs cmd more := by
    simp [mainRun, tlsPhase, ht]
  have e2 : mainRun fl ("tidb" :: dbs :: cmd :: more) w
      = dispatch fl w "tidb" dbs cmd more := by
    simp [mainRun, tlsPhase, ht]
  have h1 := dispatch_wire fl w "redshift" dbs cmd more hdb rfl
  have h2 := dispatch_wire fl w "tidb" dbs cmd more hdb rfl
  rw [e1, e2]
  refine ⟨⟨h1.1, ?_, ?_⟩, ⟨h2.1, ?_, ?_⟩⟩
  · simpa [wireDriver] using h1.2.1
  · intro d s hm
    simpa [wireDriver] using (h1.2.2 d s hm).1
  · simpa [wireDriver] using h2.2.1
  · intro d s hm
    simpa [wireDriver] using (h2.2.2 d s hm).1

/-- C2 witness: for a concrete successful run, redshift opens through the
postgres wire driver and tidb through the mysql wire driver. -/
theorem C2_witness :
    Event.sqlOpen "postgres" "dsn"
        ∈ (mainRun ⟨".", "", "", "", "", false⟩
            ["redshift", "dsn", "up"] wOk).1 ∧
    Event.sqlOpen "mysql" "dsn"
        ∈ (mainRun ⟨".", "", "", "", "", false⟩ ["tidb", "dsn", "up"] wOk).1 :=
  ⟨(C2_alias_dialect_vs_wire _ wOk "dsn" "up" []
      (by decide) (by decide)).1.2.1,
   (C2_alias_dialect_vs_wire _ wOk "dsn" "up" []
      (by decide) (by decide)).2.2.1⟩

/-- C3: when some TLS flag is set on the driver-dispatch path and the
driver token is not mysql, the process aborts at the driver-validation
site with an empty trace, hence before any certificate file is read. -/
theorem C3_tls_non_mysql_fatal (fl : Flags) (w : World) (a0 dbs cmd : String)
    (more : List String) (ht : tlsFlagSet fl)
    (hh1 : a0 ≠ "-h") (hh2 : a0 ≠ "--help") (hc : a0 ≠ "create")
    (hf : a0 ≠ "fix") (hm : a0 ≠ "mysql") :
    mainRun fl (a0 :: dbs :: cmd :: more) w
      = ([], Outcome.fatal Msg.tlsDriverErr) := by
  simp [mainRun, tlsPhase, hh1, hh2, hc, hf, ht, hm]

/-- C3 witness: the theorem applied to driver postgres with cacert set. -/
theorem C3_witness :
    mainRun ⟨".", "", "ca.pem", "", "", false⟩ ["postgres", "dsn", "up"] wOk
      = ([], Outcome.fatal Msg.tlsDriverErr) :=
  C3_tls_non_mysql_fatal _ wOk "postgres" "dsn" "up" [] (by decide)
    (by decide) (by decide) (by decide) (by decide) (by decide)

/-- C4 counterexample: a create invocation with cacert set never touches
TLS configuration, although a TLS flag is non-empty, so the claimed
equivalence (TLS attempted iff some TLS flag is non-empty, including for
create and fix) is false here. -/
theorem C4_counterexample :
    tlsFlagSet (⟨"/migrations", "prof", "ca.pem", "", "", false⟩ : Flags) ∧
    ¬ tlsTouched (mainRun ⟨"/migrations", "prof", "ca.pem", "", "", false⟩
        ["create", "add_column", "sql"] wOk) := by
  decide

/-- C4 (amended): TLS configuration is attempted if and only if some TLS
flag is non-empty AND the invocation follows the driver-dispatch path: at
least three tokens and a first token that is none of -h, --help, create,
fix.  The create and fix commands and too-short invocations return before
the TLS block. -/
theorem C4_tls_gate_iff (fl : Flags) (args : List String) (w : World) :
    tlsTouched (mainRun fl args w) ↔
      tlsFlagSet fl ∧ 3 ≤ args.length ∧
        args.head? ≠ some "-h" ∧ args.head? ≠ some "--help" ∧
        args.head? ≠ some "create" ∧ args.head? ≠ some "fix" := by
  rcases args with _ | ⟨a0, rest⟩
  · simp [mainRun, tlsTouched]
  by_cases hh : a0 = "-h" ∨ a0 = "--help"
  · rcases hh with rfl | rfl <;> simp [mainRun, tlsTouched]
  by_cases hc : a0 = "create"
  · subst hc
    rcases h : w.gooseRun "create" none fl.dir rest with _ | e <;>
      simp [mainRun, tlsTouched, h, Event.isFileRead, Event.isRegisterTLS]
  by_cases hf : a0 = "fix"
  · subst hf
    rcases h : w.gooseRun "fix" none fl.dir [] with _ | e <;>
      simp [mainRun, tlsTouched, h, Event.isFileRead, Event.isRegisterTLS]
  have hh1 : a0 ≠ "-h" := fun h => hh (Or.inl h)
  have hh2 : a0 ≠ "--help" := fun h => hh (Or.inr h)
  rcases rest with _ | ⟨dbs, rest2⟩
  · simp [mainRun, tlsTouched, hh, hc, hf]
  rcases rest2 with _ | ⟨cmd, more⟩
  · simp [mainRun, tlsTouched, hh, hc, hf]
  constructor
  · intro hL
    refine ⟨?_, by simp only [List.length_cons]; omega, by simpa using hh1,
      by simpa using hh2, by simpa using hc, by simpa using hf⟩
    by_contra ht
    exact mainRun_not_touched fl w a0 dbs cmd more hh hc hf ht hL
  · rintro ⟨ht, -, -, -, -, -⟩
    exact mainRun_touched_of_flags fl w a0 dbs cmd more hh hc hf ht

/-- C5: once some TLS flag is set and the driver token is mysql, the run
aborts at the material-combination site with an empty trace (so before any
file I/O) whenever cacert or tlsname is empty, or useclientcert is set
while clientcert or clientkey is empty. -/
theorem C5_tls_missing_material_fatal (fl : Flags) (w : World)
    (dbs cmd : String) (more : List String)
    (ht : tlsFlagSet fl) (hb : tlsComboBad fl) :
    mainRun fl ("mysql" :: dbs :: cmd :: more) w
      = ([], Outcome.fatal Msg.tlsFlagErr) := by
  simp [mainRun, tlsPhase, ht, hb]

/-- C5 witness: tlsname set but cacert missing aborts before any file read. -/
theorem C5_witness :
    mainRun ⟨".", "prof", "", "", "", false⟩ ["mysql", "dsn", "up"] wOk
      = ([], Outcome.fatal Msg.tlsFlagErr) :=
  C5_tls_missing_material_fatal _ wOk "dsn" "up" [] (by decide) (by decide)

/-- C6: if the CA file is readable but appending its content to the cert
pool finds no usable PEM certificate, the run aborts at the parse-failure
site with only the CA read in the trace: the client-certificate step is
never reached. -/
theorem C6_ca_pem_parse_fatal (fl : Flags) (w : World) (dbs cmd : String)
    (more : List String) (pem : List Nat)
    (ht : tlsFlagSet fl) (hb : ¬ tlsComboBad fl)
    (hread : w.readFile fl.caCert = Except.ok pem)
    (hpem : w.appendCertsFromPEM pem = false) :
    mainRun fl ("mysql" :: dbs :: cmd :: more) w
      = ([Event.readFile fl.caCert], Outcome.fatal Msg.caPemErr) := by
  simp [mainRun, tlsPhase, setupTLS, ht, hb, hread, hpem]

/-- C6 witness: a readable CA file with no usable certificate, with the
client-certificate flags also set, still dies at the parse site. -/
theorem C6_witness :
    mainRun ⟨".", "prof", "ca.pem", "client.pem", "client.key", true⟩
        ["mysql", "dsn", "up"] wPemFail
      = ([Event.readFile "ca.pem"], Outcome.fatal Msg.caPemErr) :=
  C6_ca_pem_parse_fatal _ wPemFail "dsn" "up" [] [9, 9] (by decide)
    (by decide) rfl rfl

/-- C7: on the driver-dispatch path, with the TLS phase not aborting and a
known driver token, an empty dbstring makes the run abort with the
dedicated validation error that carries the empty dbstring, and no
`sql.Open` event ever appears in the trace. -/
theorem C7_empty_dbstring_fatal (fl : Flags) (w : World) (a0 cmd : String)
    (more : List String)
    (hh1 : a0 ≠ "-h") (hh2 : a0 ≠ "--help") (hc : a0 ≠ "create")
    (hf : a0 ≠ "fix") (hdia : SetDialect a0 = none)
    (htp : (tlsPhase fl a0 w).2 = none) :
    (mainRun fl (a0 :: "" :: cmd :: more) w).2
        = Outcome.fatal (Msg.dbstringEmpty "") ∧
    ∀ ev ∈ (mainRun fl (a0 :: "" :: cmd :: more) w).1,
      ev.isSqlOpen = false := by
  rcases hp : tlsPhase fl a0 w with ⟨evs, res⟩
  rw [hp] at htp
  simp only at htp
  subst htp
  have hmr : mainRun fl (a0 :: "" :: cmd :: more) w
      = (evs ++ [Event.setDialect a0],
         Outcome.fatal (Msg.dbstringEmpty "")) := by
    simp [mainRun, hh1, hh2, hc, hf, hp, dispatch, hdia]
  rw [hmr]
  refine ⟨rfl, ?_⟩
  intro ev hev
  rcases List.mem_append.1 hev with h | h
  · have hno := tlsPhase_no_sqlOpen fl a0 w
    rw [hp] at hno
    exact hno ev (by simpa using h)
  · simp at h
    rw [h]
    rfl

/-- C7 witness: the theorem applied to sqlite3 with an empty dbstring. -/
theorem C7_witness :
    (mainRun ⟨".", "", "", "", "", false⟩ ["sqlite3", "", "status"] wOk).2
        = Outcome.fatal (Msg.dbstringEmpty "") ∧
    ∀ ev ∈ (mainRun ⟨".", "", "", "", "", false⟩
        ["sqlite3", "", "status"] wOk).1, ev.isSqlOpen = false :=
  C7_empty_dbstring_fatal _ wOk "sqlite3" "status" [] (by decide) (by decide)
    (by decide) (by decide) rfl rfl

/-- C8: a create invocation performs exactly one external action, the
engine run with command create, no handle, the migrations directory and
all remaining tokens forwarded verbatim; in particular no dialect
selection, TLS action or connection open appears in the trace. -/
theorem C8_create_dispatch (fl : Flags) (w : World) (rest : List String) :
    (mainRun fl ("create" :: rest) w).1
      = [Event.gooseRun "create" none fl.dir rest] := by
  rcases h : w.gooseRun "create" none fl.dir rest with _ | e <;>
    simp [mainRun, h]

/-- C9: when useclientcert is false and TLS setup runs over a CA file whose
content parses, the registered profile carries zero client certificates and
no key-pair load appears in the trace, whatever the clientcert and
clientkey flags hold. -/
theorem C9_no_client_cert_profile (fl : Flags) (w : World) (dbs cmd : String)
    (more : List String) (pem : List Nat)
    (ht : tlsFlagSet fl) (hb : ¬ tlsComboBad fl)
    (hu : fl.useClientCert = false)
    (hread : w.readFile fl.caCert = Except.ok pem)
    (hpem : w.appendCertsFromPEM pem = true) :
    Event.registerTLSProfile fl.tlsName ⟨pem, []⟩
        ∈ (mainRun fl ("mysql" :: dbs :: cmd :: more) w).1 ∧
    ∀ ev ∈ (mainRun fl ("mysql" :: dbs :: cmd :: more) w).1,
      ev.isLoadKeyPair = false := by
  have hst : setupTLS fl w
      = ([Event.readFile fl.caCert,
          Event.registerTLSProfile fl.tlsName ⟨pem, []⟩,
          Event.logTLSEnabled], none) := by
    simp [setupTLS, hread, hpem, hu]
  have hmr : (mainRun fl ("mysql" :: dbs :: cmd :: more) w).1
      = [Event.readFile fl.caCert,
         Event.registerTLSProfile fl.tlsName ⟨pem, []⟩,
         Event.logTLSEnabled] ++ (dispatch fl w "mysql" dbs cmd more).1 := by
    simp [mainRun, tlsPhase, ht, hb, hst]
  rw [hmr]
  constructor
  · exact List.mem_append_left _ (by simp)
  · intro ev hev
    rcases List.mem_append.1 hev with h | h
    · simp at h
      rcases h with h | h | h <;> rw [h] <;> rfl
    · exact (dispatch_no_tls_events fl w "mysql" dbs cmd more ev h).2.2

/-- C9 witness: clientcert and clientkey point at files, yet with
useclientcert false the registered profile has no client certificate and
those files are never read. -/
theorem C9_witness :
    Event.registerTLSProfile "prof" ⟨[1, 2, 3], []⟩
        ∈ (mainRun ⟨"/m", "prof", "ca.pem", "client.pem", "client.key", false⟩
            ["mysql", "dsn", "up"] wOk).1 ∧
    ∀ ev ∈ (mainRun ⟨"/m", "prof", "ca.pem", "client.pem", "client.key", false⟩
        ["mysql", "dsn", "up"] wOk).1, ev.isLoadKeyPair = false :=
  C9_no_client_cert_profile _ wOk "dsn" "up" [] [1, 2, 3] (by decide)
    (by decide) rfl rfl rfl

/-- C10: a fix invocation performs exactly one external action, the engine
run with command fix, no handle, the migrations directory and an empty
argument list: tokens after fix are dropped, not forwarded. -/
theorem C10_fix_discards_args (fl : Flags) (w : World) (rest : List String) :
    (mainRun fl ("fix" :: rest) w).1
      = [Event.gooseRun "fix" none fl.dir []] := by
  rcases h : w.gooseRun "fix" none fl.dir [] with _ | e <;>
    simp [mainRun, h]

end Goose
